import Mathlib

/-!
# Verification of `blob_reader.py`: content-type heuristic and encoding-fallback decoder

Shallow embedding of the two pure functions original to this repository,
`guess_content_type` and `safe_decode` (src/python/blob_reader.py), together
with the codecs they exercise. Bytes are modelled as `Fin 256`, decoded text
as the list of Unicode code points the Python `str` would hold, and the two
typed failures (`ValueError` for binary content, `UnicodeError` for decode
exhaustion) plus the uncaught codec-lookup failure (`LookupError`) as
constructors of `DecodeOutcome`.
-/

set_option autoImplicit false

namespace BlobReader

/-- A byte, as carried by a Python `bytes` object. -/
abbrev Byte := Fin 256

/-- Verdict of `guess_content_type`: the strings `'text'` / `'binary'`. -/
inductive ContentType : Type
  | text
  | binary
  deriving DecidableEq, Repr

/-- The fixed list `binary_sigs` from `guess_content_type`:
`%PDF-`, `PK\x03\x04`, `\x89PNG`, `\xFF\xD8\xFF`, `\x1f\x8b`. -/
def binary_sigs : List (List Byte) :=
  [ [0x25, 0x50, 0x44, 0x46, 0x2D],   -- b'%PDF-'  (PDF)
    [0x50, 0x4B, 0x03, 0x04],         -- b'PK\x03\x04'  (ZIP)
    [0x89, 0x50, 0x4E, 0x47],         -- b'\x89PNG'  (PNG)
    [0xFF, 0xD8, 0xFF],               -- b'\xFF\xD8\xFF'  (JPEG)
    [0x1F, 0x8B] ]                    -- bytes([0x1f, 0x8b])  (gzip)

/-- The predicate of the generator expression
`b < 32 and b not in {9, 10, 13}` in `guess_content_type`. -/
def isControlByte (b : Byte) : Bool :=
  decide (b.val < 32) && !(decide (b.val = 9) || decide (b.val = 10) || decide (b.val = 13))

/-- `control_chars = sum(1 for b in sample if b < 32 and b not in {9, 10, 13})`. -/
def controlCount (sample : List Byte) : Nat :=
  (sample.filter isControlByte).length

/-- `guess_content_type(data, sample_size=1024)`.

The source compares `control_chars > len(sample) * 0.3` in IEEE-754 doubles.
`0.3` rounds to `5404319552844595 / 2^54`; for every sample length below
`10^15` the float comparison decides exactly as the real-number comparison
`control_chars > 3 * len(sample) / 10` (when `3*len/10` is an integer the
product `len * 0.3` rounds back to that integer exactly, and otherwise the
rounding error is far smaller than the 1/10 gap to the nearest integer), so
it is embedded as the exact integer comparison `3 * len < 10 * count`. -/
def guess_content_type (data : List Byte) (sample_size : Nat := 1024) : ContentType :=
  let sample := data.take sample_size
  if binary_sigs.any (fun sig => sig.isPrefixOf sample) then
    ContentType.binary
  else if 3 * sample.length < 10 * controlCount sample then
    ContentType.binary
  else
    ContentType.text

/-- A UTF-8 continuation byte: `0x80 ≤ b ≤ 0xBF`. -/
def isContinuation (b : Byte) : Bool :=
  decide (0x80 ≤ b.val) && decide (b.val ≤ 0xBF)

/-- Strict UTF-8 decoding, as CPython's `bytes.decode('utf-8')` in the default
`'strict'` error mode: rejects lone continuation bytes, overlong forms
(`0xC0`/`0xC1`, 3-byte forms below `U+0800`, 4-byte forms below `U+10000`),
surrogate code points `U+D800`–`U+DFFF`, and anything above `U+10FFFF`.
Returns the code points on success, `none` on `UnicodeDecodeError`. -/
def utf8Decode : List Byte → Option (List Nat)
  | [] => some []
  | b1 :: rest =>
    if b1.val < 0x80 then
      (utf8Decode rest).map (fun t => b1.val :: t)
    else if b1.val < 0xC2 then
      none
    else if b1.val < 0xE0 then
      match rest with
      | b2 :: rest2 =>
        if isContinuation b2 then
          (utf8Decode rest2).map (fun t => ((b1.val - 0xC0) * 0x40 + (b2.val - 0x80)) :: t)
        else none
      | [] => none
    else if b1.val < 0xF0 then
      match rest with
      | b2 :: b3 :: rest3 =>
        let cp := (b1.val - 0xE0) * 0x1000 + (b2.val - 0x80) * 0x40 + (b3.val - 0x80)
        if isContinuation b2 && isContinuation b3 &&
            decide (0x800 ≤ cp) && !(decide (0xD800 ≤ cp) && decide (cp ≤ 0xDFFF)) then
          (utf8Decode rest3).map (fun t => cp :: t)
        else none
      | _ => none
    else if b1.val < 0xF5 then
      match rest with
      | b2 :: b3 :: b4 :: rest4 =>
        let cp := (b1.val - 0xF0) * 0x40000 + (b2.val - 0x80) * 0x1000 +
                  (b3.val - 0x80) * 0x40 + (b4.val - 0x80)
        if isContinuation b2 && isContinuation b3 && isContinuation b4 &&
            decide (0x10000 ≤ cp) && decide (cp ≤ 0x10FFFF) then
          (utf8Decode rest4).map (fun t => cp :: t)
        else none
      | _ => none
    else
      none

/-- `bytes.decode('latin1')`: total, each byte maps to the same code point. -/
def latin1Decode (data : List Byte) : Option (List Nat) :=
  some (data.map Fin.val)

/-- The Windows-1252 table for one byte: bytes `0x00`–`0x7F` and `0xA0`–`0xFF`
map to themselves; `0x80`–`0x9F` map through the cp1252 table, in which
`0x81`, `0x8D`, `0x8F`, `0x90`, `0x9D` are undefined and raise. -/
def cp1252Map (b : Nat) : Option Nat :=
  if b < 0x80 then some b
  else if 0xA0 ≤ b then some b
  else match b with
    | 0x80 => some 0x20AC  -- EURO SIGN
    | 0x82 => some 0x201A  -- SINGLE LOW-9 QUOTATION MARK
    | 0x83 => some 0x0192  -- LATIN SMALL LETTER F WITH HOOK
    | 0x84 => some 0x201E  -- DOUBLE LOW-9 QUOTATION MARK
    | 0x85 => some 0x2026  -- HORIZONTAL ELLIPSIS
    | 0x86 => some 0x2020  -- DAGGER
    | 0x87 => some 0x2021  -- DOUBLE DAGGER
    | 0x88 => some 0x02C6  -- MODIFIER LETTER CIRCUMFLEX ACCENT
    | 0x89 => some 0x2030  -- PER MILLE SIGN
    | 0x8A => some 0x0160  -- LATIN CAPITAL LETTER S WITH CARON
    | 0x8B => some 0x2039  -- SINGLE LEFT-POINTING ANGLE QUOTATION MARK
    | 0x8C => some 0x0152  -- LATIN CAPITAL LIGATURE OE
    | 0x8E => some 0x017D  -- LATIN CAPITAL LETTER Z WITH CARON
    | 0x91 => some 0x2018  -- LEFT SINGLE QUOTATION MARK
    | 0x92 => some 0x2019  -- RIGHT SINGLE QUOTATION MARK
    | 0x93 => some 0x201C  -- LEFT DOUBLE QUOTATION MARK
    | 0x94 => some 0x201D  -- RIGHT DOUBLE QUOTATION MARK
    | 0x95 => some 0x2022  -- BULLET
    | 0x96 => some 0x2013  -- EN DASH
    | 0x97 => some 0x2014  -- EM DASH
    | 0x98 => some 0x02DC  -- SMALL TILDE
    | 0x99 => some 0x2122  -- TRADE MARK SIGN
    | 0x9A => some 0x0161  -- LATIN SMALL LETTER S WITH CARON
    | 0x9B => some 0x203A  -- SINGLE RIGHT-POINTING ANGLE QUOTATION MARK
    | 0x9C => some 0x0153  -- LATIN SMALL LIGATURE OE
    | 0x9E => some 0x017E  -- LATIN SMALL LETTER Z WITH CARON
    | 0x9F => some 0x0178  -- LATIN CAPITAL LETTER Y WITH DIAERESIS
    | _ => none            -- 0x81, 0x8D, 0x8F, 0x90, 0x9D: UnicodeDecodeError

/-- `bytes.decode('cp1252')`: byte-wise through `cp1252Map`, failing on any
byte the code page leaves undefined. -/
def cp1252Decode (data : List Byte) : Option (List Nat) :=
  data.mapM (fun b => cp1252Map b.val)

/-- `bytes.decode('ascii')`: succeeds iff every byte is below `0x80`. -/
def asciiDecode (data : List Byte) : Option (List Nat) :=
  if data.all (fun b => decide (b.val < 0x80)) then some (data.map Fin.val) else none

/-- The slice of Python's codec registry exercised by this module: the
encodings named in `safe_decode` and its defaults. `data.decode(name)` for a
registered `name` either returns the code points or raises a `UnicodeError`
(modelled by the codec returning `none`); an unregistered `name` raises
`LookupError` before any decoding happens. -/
def lookupCodec : String → Option (List Byte → Option (List Nat))
  | "utf-8" => some utf8Decode
  | "latin1" => some latin1Decode
  | "cp1252" => some cp1252Decode
  | "ascii" => some asciiDecode
  | _ => none

/-- One hexadecimal digit, lowercase, as `bytes.hex()` produces. -/
def hexDigit (n : Nat) : Char :=
  if n < 10 then Char.ofNat (48 + n) else Char.ofNat (87 + n)

/-- `bytes.hex()`: two lowercase hex digits per byte. -/
def bytesHex (data : List Byte) : String :=
  String.mk (data.foldr (fun b acc => hexDigit (b.val / 16) :: hexDigit (b.val % 16) :: acc) [])

/-- Outcome of `safe_decode`: normal return `(decoded_text, encoding_used)`,
the `ValueError` raised on classifier-binary input (carrying `data[:20].hex()`),
the final `UnicodeError` raised when every encoding failed (carrying
`[primary_encoding] + fallback_encodings` and `data[:100].hex()`), or the
`LookupError` that an unknown encoding name lets escape. -/
inductive DecodeOutcome : Type
  | ok (decoded_text : List Nat) (encoding_used : String)
  | binaryContentError (hex20 : String)
  | decodeExhaustedError (attempted : List String) (hex100 : String)
  | lookupError (encoding : String)
  deriving DecidableEq, Repr

/-- `if not fallback_encodings: fallback_encodings = ['latin1', 'cp1252', 'ascii']`:
both `None` and the empty list are falsy, so both are replaced by the default. -/
def effectiveFallbacks : Option (List String) → List String
  | none => ["latin1", "cp1252", "ascii"]
  | some [] => ["latin1", "cp1252", "ascii"]
  | some fs => fs

/-- The `for enc in fallback_encodings:` loop of `safe_decode`, followed by the
final `raise UnicodeError(...)`. `attempted` and `hex100` are the payloads of
that final error: `[primary_encoding] + fallback_encodings` and
`data[:100].hex()`. -/
def tryFallbacks (data : List Byte) (attempted : List String) (hex100 : String) :
    List String → DecodeOutcome
  | [] => .decodeExhaustedError attempted hex100
  | enc :: rest =>
    match lookupCodec enc with
    | none => .lookupError enc
    | some codec =>
      match codec data with
      | some text => .ok text enc
      | none => tryFallbacks data attempted hex100 rest

/-- `safe_decode(data, primary_encoding='utf-8', fallback_encodings=None)`. -/
def safe_decode (data : List Byte) (primary_encoding : String := "utf-8")
    (fallback_encodings : Option (List String) := none) : DecodeOutcome :=
  let fallbacks := effectiveFallbacks fallback_encodings
  if guess_content_type data = ContentType.binary then
    .binaryContentError (bytesHex (data.take 20))
  else
    match lookupCodec primary_encoding with
    | none => .lookupError primary_encoding
    | some codec =>
      match codec data with
      | some text => .ok text primary_encoding
      | none =>
        tryFallbacks data (primary_encoding :: fallbacks) (bytesHex (data.take 100)) fallbacks

end BlobReader

namespace BlobReader

/-! ## Helper lemmas -/

lemma effectiveFallbacks_of_ne_nil (fs : List String) (h : fs ≠ []) :
    effectiveFallbacks (some fs) = fs := by
  cases fs with
  | nil => exact absurd rfl h
  | cons a l => rfl

lemma safe_decode_of_text (data : List Byte) (p : String) (fb : Option (List String))
    (h : guess_content_type data = ContentType.text) :
    safe_decode data p fb =
      match lookupCodec p with
      | none => .lookupError p
      | some codec =>
        match codec data with
        | some text => .ok text p
        | none =>
          tryFallbacks data (p :: effectiveFallbacks fb) (bytesHex (data.take 100))
            (effectiveFallbacks fb) := by
  unfold safe_decode
  rw [h, if_neg (fun hc => ContentType.noConfusion hc)]

lemma safe_decode_of_binary (data : List Byte) (p : String) (fb : Option (List String))
    (h : guess_content_type data = ContentType.binary) :
    safe_decode data p fb = .binaryContentError (bytesHex (data.take 20)) := by
  unfold safe_decode
  rw [h, if_pos rfl]

lemma tryFallbacks_skip (data : List Byte) (att : List String) (hex : String)
    (pre rest : List String)
    (h : ∀ e ∈ pre, ∃ c, lookupCodec e = some c ∧ c data = none) :
    tryFallbacks data att hex (pre ++ rest) = tryFallbacks data att hex rest := by
  induction pre with
  | nil => rfl
  | cons e pre ih =>
    obtain ⟨c, hc, hcd⟩ := h e (List.mem_cons_self e pre)
    rw [List.cons_append, tryFallbacks, hc]
    simp only [hcd]
    exact ih (fun e' he' => h e' (List.mem_cons_of_mem e he'))

lemma tryFallbacks_all_fail (data : List Byte) (att : List String) (hex : String)
    (l : List String)
    (h : ∀ e ∈ l, ∃ c, lookupCodec e = some c ∧ c data = none) :
    tryFallbacks data att hex l = .decodeExhaustedError att hex := by
  have := tryFallbacks_skip data att hex l [] h
  rwa [List.append_nil] at this

end BlobReader

namespace BlobReader

lemma safe_decode_text_lookup_fail (data : List Byte) (p : String)
    (fb : Option (List String))
    (hclass : guess_content_type data = ContentType.text)
    (hp : lookupCodec p = none) :
    safe_decode data p fb = .lookupError p := by
  simp only [safe_decode_of_text data p fb hclass, hp]

lemma safe_decode_text_primary_ok (data : List Byte) (p : String)
    (fb : Option (List String)) (c : List Byte → Option (List Nat)) (t : List Nat)
    (hclass : guess_content_type data = ContentType.text)
    (hp : lookupCodec p = some c) (hc : c data = some t) :
    safe_decode data p fb = .ok t p := by
  simp only [safe_decode_of_text data p fb hclass, hp, hc]

lemma safe_decode_text_primary_fail (data : List Byte) (p : String)
    (fb : Option (List String)) (c : List Byte → Option (List Nat))
    (hclass : guess_content_type data = ContentType.text)
    (hp : lookupCodec p = some c) (hc : c data = none) :
    safe_decode data p fb =
      tryFallbacks data (p :: effectiveFallbacks fb) (bytesHex (data.take 100))
        (effectiveFallbacks fb) := by
  simp only [safe_decode_of_text data p fb hclass, hp, hc]

lemma tryFallbacks_head_ok (data : List Byte) (att : List String) (hex : String)
    (e : String) (rest : List String) (c : List Byte → Option (List Nat)) (t : List Nat)
    (he : lookupCodec e = some c) (ht : c data = some t) :
    tryFallbacks data att hex (e :: rest) = .ok t e := by
  simp only [tryFallbacks, he, ht]

lemma tryFallbacks_head_lookup_fail (data : List Byte) (att : List String) (hex : String)
    (e : String) (rest : List String) (he : lookupCodec e = none) :
    tryFallbacks data att hex (e :: rest) = .lookupError e := by
  simp only [tryFallbacks, he]

end BlobReader

namespace BlobReader

/-! ## Claims -/

/-- C1: For every byte sequence classified as text, `safe_decode` attempts the
primary encoding first, returning `(text, primary)` when it succeeds; on
primary failure it attempts each encoding of the fallback list in use, in
list order, and returns `(text, thatEncoding)` for the first fallback that
succeeds, never a later one. -/
theorem safe_decode_primary_then_first_fallback (data : List Byte) (p : String)
    (fb : Option (List String)) (cp : List Byte → Option (List Nat))
    (hclass : guess_content_type data = ContentType.text)
    (hp : lookupCodec p = some cp) :
    (∀ t, cp data = some t → safe_decode data p fb = .ok t p) ∧
    (∀ pre e post ce t, cp data = none →
      effectiveFallbacks fb = pre ++ e :: post →
      (∀ d ∈ pre, ∃ c, lookupCodec d = some c ∧ c data = none) →
      lookupCodec e = some ce → ce data = some t →
      safe_decode data p fb = .ok t e) := by
  constructor
  · intro t ht
    exact safe_decode_text_primary_ok data p fb cp t hclass hp ht
  · intro pre e post ce t hpd hfb hpre he het
    rw [safe_decode_text_primary_fail data p fb cp hclass hp hpd, hfb,
      tryFallbacks_skip data _ _ pre (e :: post) hpre,
      tryFallbacks_head_ok data _ _ e post ce t he het]

/-- Witness for C1 at the example from the spec: the latin1 encoding of
`café` fails under primary utf-8 and succeeds under the first default
fallback, latin1. -/
theorem safe_decode_primary_then_first_fallback_witness :
    safe_decode [0x63, 0x61, 0x66, 0xE9] "utf-8" none =
      .ok [0x63, 0x61, 0x66, 0xE9] "latin1" :=
  (safe_decode_primary_then_first_fallback [0x63, 0x61, 0x66, 0xE9] "utf-8" none
      utf8Decode (by decide) rfl).2
    [] "latin1" ["cp1252", "ascii"] latin1Decode [0x63, 0x61, 0x66, 0xE9]
    (by decide) rfl (by simp) rfl rfl

/-- C2 counterexample: the claim includes the explicitly supplied empty
fallback list, but `if not fallback_encodings` treats the empty list as
falsy and replaces it with the defaults, so on `b"\xff"` (primary utf-8
fails, no listed fallback exists) the result is `("ÿ", "latin1")`, not a
`DecodeExhaustedError` listing exactly `["utf-8"]`. -/
theorem safe_decode_empty_fallbacks_counterexample :
    guess_content_type [0xFF] = ContentType.text ∧
    utf8Decode [0xFF] = none ∧
    safe_decode [0xFF] "utf-8" (some []) = .ok [0xFF] "latin1" ∧
    safe_decode [0xFF] "utf-8" (some []) ≠
      .decodeExhaustedError ["utf-8"] (bytesHex (List.take 100 [0xFF])) := by
  decide

/-- C2 (amended): for every byte sequence classified as text and every
primary encoding and explicitly supplied NON-EMPTY fallback list such that
decoding fails under the primary and under every listed fallback,
`safe_decode` fails with the decode-exhausted error whose attempted list is
exactly `[primary] + fallbacks` together with the hex preview of the first
100 bytes; when the caller supplies no fallback list — or an empty (falsy)
one — the defaults `[latin1, cp1252, ascii]` are attempted instead. -/
theorem safe_decode_exhausted_all_fail (data : List Byte) (p : String)
    (fs : List String)
    (hclass : guess_content_type data = ContentType.text)
    (hne : fs ≠ [])
    (hall : ∀ e ∈ p :: fs, ∃ c, lookupCodec e = some c ∧ c data = none) :
    safe_decode data p (some fs) =
      .decodeExhaustedError (p :: fs) (bytesHex (data.take 100)) ∧
    effectiveFallbacks none = ["latin1", "cp1252", "ascii"] ∧
    effectiveFallbacks (some ([] : List String)) = ["latin1", "cp1252", "ascii"] := by
  refine ⟨?_, rfl, rfl⟩
  obtain ⟨cp, hp, hpd⟩ := hall p (List.mem_cons_self p fs)
  rw [safe_decode_text_primary_fail data p (some fs) cp hclass hp hpd,
    effectiveFallbacks_of_ne_nil fs hne,
    tryFallbacks_all_fail data (p :: fs) _ fs
      (fun e he => hall e (List.mem_cons_of_mem p he))]

/-- Witness for C2 (amended): `b"\xff"` fails under utf-8 and under the one
supplied fallback ascii, so the error lists `["utf-8", "ascii"]`. -/
theorem safe_decode_exhausted_all_fail_witness :
    safe_decode [0xFF] "utf-8" (some ["ascii"]) =
      .decodeExhaustedError ["utf-8", "ascii"] (bytesHex (List.take 100 [0xFF])) :=
  (safe_decode_exhausted_all_fail [0xFF] "utf-8" ["ascii"] (by decide) (by decide)
    (by
      intro e he
      rcases List.mem_cons.mp he with rfl | he2
      · exact ⟨utf8Decode, rfl, by decide⟩
      rcases List.mem_cons.mp he2 with rfl | he3
      · exact ⟨asciiDecode, rfl, by decide⟩
      exact absurd he3 (List.not_mem_nil e))).1

/-- C3: for every byte sequence the classifier maps to binary, `safe_decode`
fails with the binary-content error carrying the hex preview of the first 20
bytes, whatever primary and fallback arguments are passed — the outcome does
not depend on them, so no decode attempt is ever made. -/
theorem safe_decode_binary_never_decodes (data : List Byte)
    (h : guess_content_type data = ContentType.binary) :
    ∀ (p : String) (fb : Option (List String)),
      safe_decode data p fb = .binaryContentError (bytesHex (data.take 20)) :=
  fun p fb => safe_decode_of_binary data p fb h

/-- Witness for C3 at the PDF signature `b"%PDF-"`. -/
theorem safe_decode_binary_never_decodes_witness :
    safe_decode [0x25, 0x50, 0x44, 0x46, 0x2D] "utf-8" none =
      .binaryContentError (bytesHex (List.take 20 [0x25, 0x50, 0x44, 0x46, 0x2D])) :=
  safe_decode_binary_never_decodes [0x25, 0x50, 0x44, 0x46, 0x2D] (by decide) "utf-8" none

/-- C4: whenever the sample (the first `sample_size` bytes) starts with one
of the fixed binary magic signatures, `guess_content_type` returns binary,
regardless of the remaining content. -/
theorem classify_signature_binary (data : List Byte) (n : Nat) (sig : List Byte)
    (hmem : sig ∈ binary_sigs)
    (hpre : sig.isPrefixOf (data.take n) = true) :
    guess_content_type data n = ContentType.binary := by
  simp only [guess_content_type]
  rw [if_pos (List.any_eq_true.mpr ⟨sig, hmem, hpre⟩)]

/-- Witness for C4: a sequence starting with `b"%PDF-"` followed by further
printable content classifies as binary. -/
theorem classify_signature_binary_witness :
    guess_content_type [0x25, 0x50, 0x44, 0x46, 0x2D, 0x31, 0x2E, 0x34] 1024 =
      ContentType.binary :=
  classify_signature_binary [0x25, 0x50, 0x44, 0x46, 0x2D, 0x31, 0x2E, 0x34] 1024
    [0x25, 0x50, 0x44, 0x46, 0x2D] (by decide) (by decide)

/-- C5: when the sample starts with no binary signature, the verdict is
binary exactly when the count of sample bytes below 32 — excluding tab (9),
line feed (10) and carriage return (13) — strictly exceeds 30% of the sample
length (the exact comparison `10 * count > 3 * length`), and text otherwise. -/
theorem classify_control_ratio (data : List Byte) (n : Nat)
    (hnosig : ∀ sig ∈ binary_sigs, ¬ sig.isPrefixOf (data.take n) = true) :
    guess_content_type data n =
      (if 3 * (data.take n).length < 10 * controlCount (data.take n) then
        ContentType.binary
      else
        ContentType.text) := by
  simp only [guess_content_type]
  rw [if_neg (by
    intro hany
    obtain ⟨sig, hmem, hsig⟩ := List.any_eq_true.mp hany
    exact hnosig sig hmem hsig)]

/-- Witness for C5: three bytes, all three of which are excluded-range
control bytes, exceed the 30% threshold and classify as binary. -/
theorem classify_control_ratio_witness :
    guess_content_type [0x00, 0x00, 0x01] 1024 = ContentType.binary :=
  (classify_control_ratio [0x00, 0x00, 0x01] 1024 (by decide)).trans (by decide)

end BlobReader

namespace BlobReader

/-- C6: the empty byte sequence classifies as text, and decoding it with
primary utf-8 and the empty fallback list succeeds, returning the pair of
the empty string and `"utf-8"`. -/
theorem classify_decode_empty_input :
    guess_content_type [] = ContentType.text ∧
    safe_decode [] "utf-8" (some []) = .ok [] "utf-8" := by
  decide

/-- C7: with the fallback list defaulted — the caller supplies none, or a
falsy empty list — and a primary present in the codec registry, `safe_decode`
on text-classified input always returns some `(text, encoding)` pair: the
default fallback latin1 decodes every byte sequence. -/
theorem safe_decode_defaulted_never_exhausted (data : List Byte) (p : String)
    (c : List Byte → Option (List Nat)) (fb : Option (List String))
    (hclass : guess_content_type data = ContentType.text)
    (hp : lookupCodec p = some c)
    (hfb : fb = none ∨ fb = some []) :
    ∃ t e, safe_decode data p fb = .ok t e := by
  cases hcd : c data with
  | some t => exact ⟨t, p, safe_decode_text_primary_ok data p fb c t hclass hp hcd⟩
  | none =>
    have hdef : effectiveFallbacks fb = ["latin1", "cp1252", "ascii"] := by
      rcases hfb with rfl | rfl <;> rfl
    refine ⟨data.map Fin.val, "latin1", ?_⟩
    rw [safe_decode_text_primary_fail data p fb c hclass hp hcd, hdef,
      tryFallbacks_head_ok data _ _ "latin1" ["cp1252", "ascii"] latin1Decode
        (data.map Fin.val) rfl rfl]

/-- Witness for C7: `b"\xff"` fails under primary utf-8 but still decodes,
via the defaulted fallbacks. -/
theorem safe_decode_defaulted_never_exhausted_witness :
    ∃ t e, safe_decode [0xFF] "utf-8" none = DecodeOutcome.ok t e :=
  safe_decode_defaulted_never_exhausted [0xFF] "utf-8" utf8Decode none
    (by decide) rfl (Or.inl rfl)

/-- C8: an encoding name absent from the codec registry surfaces as the
lookup failure itself, not as the binary-content or decode-exhausted error,
and nothing after it is attempted: so when the primary is unknown, and when
an unknown name is reached in the fallback list after the primary and every
earlier fallback failed — whatever fallbacks follow it. -/
theorem safe_decode_unknown_encoding (data : List Byte) (p : String)
    (fb : Option (List String))
    (hclass : guess_content_type data = ContentType.text) :
    (lookupCodec p = none → safe_decode data p fb = .lookupError p) ∧
    (∀ c pre e post, lookupCodec p = some c → c data = none →
      effectiveFallbacks fb = pre ++ e :: post →
      (∀ d ∈ pre, ∃ cd, lookupCodec d = some cd ∧ cd data = none) →
      lookupCodec e = none →
      safe_decode data p fb = .lookupError e) := by
  constructor
  · intro hp
    exact safe_decode_text_lookup_fail data p fb hclass hp
  · intro c pre e post hp hcd hfb hpre he
    rw [safe_decode_text_primary_fail data p fb c hclass hp hcd, hfb,
      tryFallbacks_skip data _ _ pre (e :: post) hpre,
      tryFallbacks_head_lookup_fail data _ _ e post he]

/-- Witness for C8: an unregistered primary name escapes as the lookup
failure, and an unregistered fallback reached after the primary fails does
too, even though latin1 — which would succeed — comes after it. -/
theorem safe_decode_unknown_encoding_witness :
    safe_decode [0x41] "nosuch" none = DecodeOutcome.lookupError "nosuch" ∧
    safe_decode [0xFF] "utf-8" (some ["nosuch", "latin1"]) =
      DecodeOutcome.lookupError "nosuch" :=
  ⟨(safe_decode_unknown_encoding [0x41] "nosuch" none (by decide)).1 rfl,
    (safe_decode_unknown_encoding [0xFF] "utf-8" (some ["nosuch", "latin1"])
        (by decide)).2
      utf8Decode [] "nosuch" ["latin1"] rfl (by decide) rfl (by simp) rfl⟩

/-- C9: the verdict of `guess_content_type` depends only on the first
`sample_size` bytes: sequences with equal samples classify identically, and
every sequence classifies as its own sample does, for all suffixes beyond
the sample. -/
theorem classify_depends_only_on_sample (d1 d2 : List Byte) (n : Nat)
    (h : d1.take n = d2.take n) :
    guess_content_type d1 n = guess_content_type d2 n ∧
    guess_content_type d1 n = guess_content_type (d1.take n) n := by
  constructor
  · simp only [guess_content_type, h]
  · simp only [guess_content_type, List.take_take, Nat.min_self]

/-- Witness for C9: two sequences that agree on their 1-byte sample classify
identically although they differ past the sample. -/
theorem classify_depends_only_on_sample_witness :
    guess_content_type [0x41, 0x42] 1 = guess_content_type [0x41, 0x00] 1 ∧
    guess_content_type [0x41, 0x42] 1 =
      guess_content_type (List.take 1 [0x41, 0x42]) 1 :=
  classify_depends_only_on_sample [0x41, 0x42] [0x41, 0x00] 1 (by decide)

/-- C10: `guess_content_type` and `safe_decode` are deterministic pure
functions of their arguments: invocations on equal `(data, sample_size)`
respectively equal `(data, primary, fallbacks)` produce equal results. In
this embedding both are total functions of exactly those arguments, with no
other state to read and no effects. -/
theorem classify_decode_deterministic (d1 d2 : List Byte) (n1 n2 : Nat)
    (p1 p2 : String) (fb1 fb2 : Option (List String))
    (hd : d1 = d2) (hn : n1 = n2) (hp : p1 = p2) (hfb : fb1 = fb2) :
    guess_content_type d1 n1 = guess_content_type d2 n2 ∧
    safe_decode d1 p1 fb1 = safe_decode d2 p2 fb2 := by
  subst hd; subst hn; subst hp; subst hfb
  exact ⟨rfl, rfl⟩

/-- Witness for C10 at a concrete invocation. -/
theorem classify_decode_deterministic_witness :
    guess_content_type [0x41] 1024 = guess_content_type [0x41] 1024 ∧
    safe_decode [0x41] "utf-8" none = safe_decode [0x41] "utf-8" none :=
  classify_decode_deterministic [0x41] [0x41] 1024 1024 "utf-8" "utf-8" none none
    rfl rfl rfl rfl

end BlobReader
